import Mathlib

/-!
# Verification of the Story Studio generation core

Shallow embedding of the generation orchestration code of this repository
(`src/services/geminiService.ts` in its current form, i.e. the variant that
passes active characters to the image generator, and the application handlers
in `src/App.tsx`'s current form).  JavaScript strings are modeled as lists of
characters, JS `ArrayBuffer`s as lists of byte values (`Nat < 256`), and the
asynchronous service calls as explicit outcome functions supplied to each
operation.  Fallible code returns `Except`.
-/

namespace StoryStudio

/-- JavaScript strings are sequences of characters. -/
abbrev Str := List Char

/-- Coerce a Lean string literal into the character-list model. -/
def str (s : String) : Str := s.data

/-- `p` occurs contiguously inside `l` (JS `String.prototype.includes`). -/
def IsSubstr (p l : Str) : Prop := ∃ a b, l = a ++ p ++ b

/-- Executable substring check: some split point of `l` starts with `p`. -/
def subCheck (p l : Str) : Bool :=
  (List.range (l.length + 1)).any (fun i => ((l.drop i).take p.length) == p)

theorem isSubstr_iff_subCheck (p l : Str) : IsSubstr p l ↔ subCheck p l = true := by
  constructor
  · rintro ⟨a, b, rfl⟩
    simp only [subCheck, List.any_eq_true, List.mem_range]
    refine ⟨a.length, by simp; omega, ?_⟩
    rw [List.append_assoc, List.drop_left, List.take_left]
    simp
  · intro h
    simp only [subCheck, List.any_eq_true, List.mem_range] at h
    obtain ⟨i, _, hi⟩ := h
    rw [beq_iff_eq] at hi
    have h2 : l.drop i = p ++ (l.drop i).drop p.length := by
      conv_lhs => rw [← List.take_append_drop p.length (l.drop i)]
      rw [hi]
    refine ⟨l.take i, (l.drop i).drop p.length, ?_⟩
    conv_lhs => rw [← List.take_append_drop i l, h2]
    simp [List.append_assoc]

instance (p l : Str) : Decidable (IsSubstr p l) :=
  decidable_of_iff _ (isSubstr_iff_subCheck p l).symm

theorem isSubstr_of_split (p a b : Str) : IsSubstr p (a ++ p ++ b) := ⟨a, b, rfl⟩

theorem isSubstr_append_left (p l x : Str) (h : IsSubstr p l) : IsSubstr p (x ++ l) := by
  obtain ⟨a, b, rfl⟩ := h
  exact ⟨x ++ a, b, by simp⟩

theorem isSubstr_append_right (p l x : Str) (h : IsSubstr p l) : IsSubstr p (l ++ x) := by
  obtain ⟨a, b, rfl⟩ := h
  exact ⟨a, b ++ x, by simp⟩

theorem isSubstr_trans (p q l : Str) (h₁ : IsSubstr p q) (h₂ : IsSubstr q l) :
    IsSubstr p l := by
  obtain ⟨a, b, rfl⟩ := h₁
  obtain ⟨c, d, rfl⟩ := h₂
  exact ⟨c ++ a, b ++ d, by simp⟩

/-- JS `String.prototype.toLowerCase`, characterwise. -/
def lowerStr (s : Str) : Str := s.map Char.toLower

/-- JS `Array.prototype.join(sep)`. -/
def joinSep (sep : Str) : List Str → Str
  | [] => []
  | [x] => x
  | x :: y :: xs => x ++ sep ++ joinSep sep (y :: xs)

theorem isSubstr_joinSep (sep : Str) (l : List Str) (x : Str) (hx : x ∈ l) :
    IsSubstr x (joinSep sep l) := by
  induction l with
  | nil => cases hx
  | cons y ys ih =>
    cases hx with
    | head =>
      cases ys with
      | nil => exact ⟨[], [], by simp [joinSep]⟩
      | cons z zs => exact ⟨[], sep ++ joinSep sep (z :: zs), by simp [joinSep]⟩
    | tail _ hmem =>
      cases ys with
      | nil => cases hmem
      | cons z zs =>
        have := ih hmem
        simpa [joinSep, List.append_assoc] using
          isubstr_helper x (z :: zs) y sep this
where
  isubstr_helper (x : Str) (l : List Str) (y sep : Str) (h : IsSubstr x (joinSep sep l)) :
      IsSubstr x (y ++ sep ++ joinSep sep l) := by
    have := isSubstr_append_left x (joinSep sep l) (y ++ sep) h
    simpa [List.append_assoc] using this

/-! ## Data model (`src/types.ts`) -/

/-- `Character` of `src/types.ts`: `description` is the visual signature. -/
structure Character where
  id : Str
  name : Str
  role : Str
  description : Str
  image : Option Str := none
deriving DecidableEq

/-- `Scene` of `src/types.ts`: text fields plus the two generated-media slots. -/
structure Scene where
  sceneNumber : Nat
  narrative : Str
  imagePrompt : Str
  motionPrompt : Str
  characterNames : List Str
  audioData : Option Str := none
  imageUrl : Option Str := none
deriving DecidableEq

instance : Inhabited Scene :=
  ⟨{ sceneNumber := 0, narrative := [], imagePrompt := [], motionPrompt := [],
     characterNames := [] }⟩

/-- `StoryOutput` of `src/types.ts`. -/
structure StoryOutput where
  title : Str
  summary : Str
  scenes : List Scene
deriving DecidableEq

/-- `StoryConfig` of `src/types.ts` (enumerations kept as strings). -/
structure StoryConfig where
  language : Str
  category : Str
  title : Str
  premise : Str
  setting : Str
  pacing : Str
  plotTwist : Str
  characters : List Character
  sceneCount : Nat
  characterCount : Nat
deriving DecidableEq

/-- `ImageStyleConfig` of `src/types.ts`. -/
structure ImageStyleConfig where
  artStyle : Str
  cameraAngle : Str
  lighting : Str
  colorGrade : Str
  characterLook : Str
  clothingStyle : Str
deriving DecidableEq

/-- `VoiceConfig` of `src/types.ts`. -/
structure VoiceConfig where
  voiceType : Str
  tone : Str
  accent : Str
  language : Str
deriving DecidableEq

/-- `MediaSettings` of `src/types.ts`. -/
structure MediaSettings where
  aspectRatio : Str
  imageModel : Str
deriving DecidableEq

/-- `Project` of `src/types.ts`. -/
structure Project where
  id : Str
  title : Option Str := none
  lastSaved : Option Nat := none
  createdAt : Nat
  config : StoryConfig
  output : Option StoryOutput
  mediaSettings : MediaSettings
  imageStyle : ImageStyleConfig
  voiceConfig : VoiceConfig
  apiKey : Option Str := none
deriving DecidableEq

/-! ## AudioContainerCodec (`addWavHeader` in the generation service)

The service writes a 44-byte RIFF/WAVE header into a `DataView` at fixed
offsets (all multi-byte fields little-endian, `setUint16`/`setUint32`
semantics: the value is stored modulo 2^16 / 2^32), then copies the raw
`Int16Array` backing bytes (little-endian two's complement) right after it.
Buffers are modeled as lists of byte values. -/

/-- Little-endian bytes of a 16-bit store (JS `DataView.setUint16` value). -/
def u16le (v : Nat) : List Nat := [v % 256, v / 256 % 256]

/-- Little-endian bytes of a 32-bit store (JS `DataView.setUint32` value). -/
def u32le (v : Nat) : List Nat :=
  [v % 256, v / 256 % 256, v / 65536 % 256, v / 16777216 % 256]

/-- `writeString`: each character's code unit is stored as one byte. -/
def asciiBytes (s : String) : List Nat := s.data.map Char.toNat

/-- Backing bytes of one signed 16-bit sample (little-endian two's
complement, as laid out in the `Int16Array` buffer). -/
def int16Bytes (s : Int) : List Nat :=
  [((s.emod 65536).toNat) % 256, ((s.emod 65536).toNat) / 256]

/-- `new Uint8Array(pcmData.buffer)`: the raw sample bytes. -/
def pcmBytes (pcmData : List Int) : List Nat := pcmData.flatMap int16Bytes

/-- `addWavHeader` (`src/services/geminiService.ts`): 44-byte header followed
immediately by the raw sample bytes. -/
def addWavHeader (pcmData : List Int) (sampleRate : Nat := 24000) : List Nat :=
  let numChannels := 1
  let bitsPerSample := 16
  let byteRate := sampleRate * numChannels * (bitsPerSample / 8)
  let blockAlign := numChannels * (bitsPerSample / 8)
  let dataSize := pcmData.length * 2
  asciiBytes "RIFF" ++ u32le (36 + dataSize) ++ asciiBytes "WAVE"
    ++ asciiBytes "fmt " ++ u32le 16 ++ u16le 1 ++ u16le numChannels
    ++ u32le sampleRate ++ u32le byteRate ++ u16le blockAlign
    ++ u16le bitsPerSample ++ asciiBytes "data" ++ u32le dataSize
    ++ pcmBytes pcmData

/-- Parse a little-endian 16-bit field at byte offset `off`. -/
def readU16le (bytes : List Nat) (off : Nat) : Nat :=
  match bytes.drop off with
  | b0 :: b1 :: _ => b0 + 256 * b1
  | _ => 0

/-- Parse a little-endian 32-bit field at byte offset `off`. -/
def readU32le (bytes : List Nat) (off : Nat) : Nat :=
  match bytes.drop off with
  | b0 :: b1 :: b2 :: b3 :: _ => b0 + 256 * b1 + 65536 * b2 + 16777216 * b3
  | _ => 0

/-- The header fields of a WAV buffer at their fixed offsets, and the payload
that follows the 44-byte header. -/
def wavNumChannels (bytes : List Nat) : Nat := readU16le bytes 22

def wavSampleRate (bytes : List Nat) : Nat := readU32le bytes 24

def wavByteRate (bytes : List Nat) : Nat := readU32le bytes 28

def wavBlockAlign (bytes : List Nat) : Nat := readU16le bytes 32

def wavBitsPerSample (bytes : List Nat) : Nat := readU16le bytes 34

def wavPayload (bytes : List Nat) : List Nat := bytes.drop 44

theorem pcmBytes_length (pcmData : List Int) :
    (pcmBytes pcmData).length = 2 * pcmData.length := by
  induction pcmData with
  | nil => simp [pcmBytes]
  | cons s rest ih =>
    simp [pcmBytes, int16Bytes] at ih ⊢
    omega

theorem wavPayload_addWavHeader (pcmData : List Int) (sampleRate : Nat) :
    wavPayload (addWavHeader pcmData sampleRate) = pcmBytes pcmData := rfl

theorem addWavHeader_length (pcmData : List Int) (sampleRate : Nat) :
    (addWavHeader pcmData sampleRate).length = 44 + 2 * pcmData.length := by
  have h1 : (asciiBytes "RIFF").length = 4 := rfl
  have h2 : (asciiBytes "WAVE").length = 4 := rfl
  have h3 : (asciiBytes "fmt ").length = 4 := rfl
  have h4 : (asciiBytes "data").length = 4 := rfl
  have h5 : ∀ v, (u32le v).length = 4 := fun _ => rfl
  have h6 : ∀ v, (u16le v).length = 2 := fun _ => rfl
  simp only [addWavHeader, List.length_append, h1, h2, h3, h4, h5, h6,
    pcmBytes_length]
  try omega

set_option maxHeartbeats 1600000 in
/-- **C2.** `addWavHeader` produces exactly `44 + 2·n` bytes: a 44-byte header
declaring one channel, 16 bits per sample, the given sample rate, byte rate
`sampleRate * 2` and block alignment 2, followed immediately by the raw
little-endian sample bytes with no padding; parsing the buffer recovers the
header fields and the exact original sample bytes. -/
theorem addWavHeader_roundtrip (pcmData : List Int) (sampleRate : Nat)
    (h : sampleRate * 2 < 4294967296) :
    (addWavHeader pcmData sampleRate).length = 44 + 2 * pcmData.length ∧
    wavNumChannels (addWavHeader pcmData sampleRate) = 1 ∧
    wavBitsPerSample (addWavHeader pcmData sampleRate) = 16 ∧
    wavSampleRate (addWavHeader pcmData sampleRate) = sampleRate ∧
    wavByteRate (addWavHeader pcmData sampleRate) = sampleRate * 2 ∧
    wavBlockAlign (addWavHeader pcmData sampleRate) = 2 ∧
    wavPayload (addWavHeader pcmData sampleRate) = pcmBytes pcmData := by
  refine ⟨addWavHeader_length pcmData sampleRate, rfl, rfl, ?_, ?_, rfl, rfl⟩
  · have hr : wavSampleRate (addWavHeader pcmData sampleRate) =
        sampleRate % 256 + 256 * (sampleRate / 256 % 256)
          + 65536 * (sampleRate / 65536 % 256)
          + 16777216 * (sampleRate / 16777216 % 256) := rfl
    rw [hr]; omega
  · have hb : wavByteRate (addWavHeader pcmData sampleRate) =
        sampleRate * 1 * 2 % 256 + 256 * (sampleRate * 1 * 2 / 256 % 256)
          + 65536 * (sampleRate * 1 * 2 / 65536 % 256)
          + 16777216 * (sampleRate * 1 * 2 / 16777216 % 256) := rfl
    rw [hb]; omega

/-- Witness for C2 at a concrete sample buffer and the default rate. -/
theorem addWavHeader_roundtrip_witness :
    (addWavHeader [1, -2, 300] 24000).length = 50 ∧
    wavNumChannels (addWavHeader [1, -2, 300] 24000) = 1 ∧
    wavBitsPerSample (addWavHeader [1, -2, 300] 24000) = 16 ∧
    wavSampleRate (addWavHeader [1, -2, 300] 24000) = 24000 ∧
    wavByteRate (addWavHeader [1, -2, 300] 24000) = 48000 ∧
    wavBlockAlign (addWavHeader [1, -2, 300] 24000) = 2 ∧
    wavPayload (addWavHeader [1, -2, 300] 24000) = pcmBytes [1, -2, 300] := by
  have h := addWavHeader_roundtrip [1, -2, 300] 24000 (by decide)
  exact ⟨h.1.trans (by rfl), h.2.1, h.2.2.1, h.2.2.2.1, h.2.2.2.2.1,
    h.2.2.2.2.2.1, h.2.2.2.2.2.2⟩

/-! ## RetryPolicy (`callWithRetry` in the generation service)

The wrapped asynchronous operation is modeled as a stream of outcomes
`attempt : Nat → Except JsError α`, one per invocation; the wrapper is a pure
function returning the surfaced result together with the list of delays
waited (in order) before each re-attempt. -/

/-- A thrown JS error as `callWithRetry` inspects it: an optional numeric
`status` and an optional `message` string. -/
structure JsError where
  status : Option Nat := none
  message : Option Str := none
deriving DecidableEq

/-- The transient-error classification of `callWithRetry`:
`error.status === 429 || error.status === 503 || (error.message &&
(message.includes('429') || message.includes('503') ||
message.includes('overloaded')))`.  (A JS empty-string message is falsy, but
`includes` on an empty string also yields false on these patterns, so the
truthiness test does not change the outcome.) -/
def isRetryable (e : JsError) : Bool :=
  e.status == some 429 || e.status == some 503 ||
    (match e.message with
     | some m =>
         subCheck (str "429") m || subCheck (str "503") m
           || subCheck (str "overloaded") m
     | none => false)

/-- `callWithRetry(fn, retries, delay)` (`src/services/geminiService.ts`):
on failure, throw when the budget is zero; otherwise retry after `delay` with
the delay doubled when the error is transient, and rethrow immediately when
it is not.  `idx` numbers the invocations of the wrapped operation; the
second component lists every delay waited. -/
def callWithRetry (attempt : Nat → Except JsError α) (idx : Nat)
    (retries : Nat := 3) (delay : Nat := 1000) :
    Except JsError α × List Nat :=
  match attempt idx with
  | .ok v => (.ok v, [])
  | .error e =>
    match retries with
    | 0 => (.error e, [])
    | r + 1 =>
      if isRetryable e then
        let rest := callWithRetry attempt (idx + 1) r (delay * 2)
        (rest.1, delay :: rest.2)
      else (.error e, [])

/-- The delays waited by `k` consecutive retries starting from delay `d`. -/
def retryWaits (d k : Nat) : List Nat := (List.range k).map (fun j => d * 2 ^ j)

theorem retryWaits_succ (d k : Nat) :
    retryWaits d (k + 1) = d :: retryWaits (d * 2) k := by
  simp only [retryWaits, List.range_succ_eq_map, List.map_cons, List.map_map,
    pow_zero, Nat.mul_one]
  refine congrArg _ (List.map_congr_left fun j _ => ?_)
  simp only [Function.comp_apply, pow_succ]
  ring

theorem callWithRetry_step_ok (attempt : Nat → Except JsError α)
    (idx retries d : Nat) (v : α) (h : attempt idx = .ok v) :
    callWithRetry attempt idx retries d = (.ok v, []) := by
  unfold callWithRetry
  rw [h]

theorem callWithRetry_step_zero (attempt : Nat → Except JsError α)
    (idx d : Nat) (e : JsError) (h : attempt idx = .error e) :
    callWithRetry attempt idx 0 d = (.error e, []) := by
  unfold callWithRetry
  rw [h]

theorem callWithRetry_step_retry (attempt : Nat → Except JsError α)
    (idx r d : Nat) (e : JsError) (h : attempt idx = .error e)
    (hr : isRetryable e = true) :
    callWithRetry attempt idx (r + 1) d =
      ((callWithRetry attempt (idx + 1) r (d * 2)).1,
        d :: (callWithRetry attempt (idx + 1) r (d * 2)).2) := by
  conv_lhs => unfold callWithRetry
  rw [h]
  simp [hr]

theorem callWithRetry_step_fatal (attempt : Nat → Except JsError α)
    (idx r d : Nat) (e : JsError) (h : attempt idx = .error e)
    (hr : isRetryable e = false) :
    callWithRetry attempt idx (r + 1) d = (.error e, []) := by
  unfold callWithRetry
  rw [h]
  simp [hr]

theorem callWithRetry_ok_aux (attempt : Nat → Except JsError α) (v : α) :
    ∀ k idx retries d, k ≤ retries →
      (∀ j, j < k → ∃ e, attempt (idx + j) = .error e ∧ isRetryable e = true) →
      attempt (idx + k) = .ok v →
      callWithRetry attempt idx retries d = (.ok v, retryWaits d k) := by
  intro k
  induction k with
  | zero =>
    intro idx retries d _ _ hok
    simp only [Nat.add_zero] at hok
    rw [callWithRetry_step_ok attempt idx retries d v hok]
    rfl
  | succ k ih =>
    intro idx retries d hk hfail hok
    obtain ⟨e, he, hr⟩ := hfail 0 (Nat.succ_pos k)
    simp only [Nat.add_zero] at he hr
    obtain ⟨r, rfl⟩ : ∃ r, retries = r + 1 := ⟨retries - 1, by omega⟩
    rw [callWithRetry_step_retry attempt idx r d e he hr]
    have hrec := ih (idx + 1) r (d * 2) (by omega)
      (fun j hj => by
        have h := hfail (j + 1) (by omega)
        rw [show idx + (j + 1) = idx + 1 + j by omega] at h
        exact h)
      (by rw [show idx + 1 + k = idx + (k + 1) by omega]; exact hok)
    rw [hrec, retryWaits_succ]

theorem callWithRetry_exhaust_aux (attempt : Nat → Except JsError α)
    (es : Nat → JsError) :
    ∀ retries idx d,
      (∀ j, j ≤ retries → attempt (idx + j) = .error (es (idx + j)) ∧
        isRetryable (es (idx + j)) = true) →
      callWithRetry attempt idx retries d =
        (.error (es (idx + retries)), retryWaits d retries) := by
  intro retries
  induction retries with
  | zero =>
    intro idx d hfail
    obtain ⟨he, _⟩ := hfail 0 (Nat.le_refl 0)
    rw [Nat.add_zero] at he
    rw [callWithRetry_step_zero attempt idx d _ he]
    rfl
  | succ r ih =>
    intro idx d hfail
    obtain ⟨he, hr⟩ := hfail 0 (Nat.zero_le _)
    simp only [Nat.add_zero] at he hr
    rw [callWithRetry_step_retry attempt idx r d _ he hr]
    have hrec := ih (idx + 1) (d * 2) (fun j hj => by
      have h := hfail (j + 1) (by omega)
      rw [show idx + (j + 1) = idx + 1 + j by omega] at h
      exact h)
    rw [hrec, retryWaits_succ,
      show idx + 1 + r = idx + (r + 1) by omega]

theorem callWithRetry_fatal_aux (attempt : Nat → Except JsError α)
    (e : JsError) (hfatal : isRetryable e = false) :
    ∀ k idx retries d, k ≤ retries →
      (∀ j, j < k → ∃ e', attempt (idx + j) = .error e' ∧
        isRetryable e' = true) →
      attempt (idx + k) = .error e →
      callWithRetry attempt idx retries d = (.error e, retryWaits d k) := by
  intro k
  induction k with
  | zero =>
    intro idx retries d _ _ herr
    rw [Nat.add_zero] at herr
    rcases Nat.eq_zero_or_pos retries with h0 | hpos
    · subst h0
      rw [callWithRetry_step_zero attempt idx d e herr]
      rfl
    · obtain ⟨r, rfl⟩ : ∃ r, retries = r + 1 := ⟨retries - 1, by omega⟩
      rw [callWithRetry_step_fatal attempt idx r d e herr hfatal]
      rfl
  | succ k ih =>
    intro idx retries d hk hfail herr
    obtain ⟨e', he', hr'⟩ := hfail 0 (Nat.succ_pos k)
    simp only [Nat.add_zero] at he' hr'
    obtain ⟨r, rfl⟩ : ∃ r, retries = r + 1 := ⟨retries - 1, by omega⟩
    rw [callWithRetry_step_retry attempt idx r d e' he' hr']
    have hrec := ih (idx + 1) r (d * 2) (by omega)
      (fun j hj => by
        have h := hfail (j + 1) (by omega)
        rw [show idx + (j + 1) = idx + 1 + j by omega] at h
        exact h)
      (by rw [show idx + 1 + k = idx + (k + 1) by omega]; exact herr)
    rw [hrec, retryWaits_succ]

/-- **C3.** `callWithRetry` over an outcome stream: (a) `k ≤ retries`
transient failures followed by a success yield that success value, waiting
the current delay (initial `d`, doubled after each attempt) before each
re-attempt; (b) transient failures on every attempt through budget
exhaustion propagate the final error; (c) a non-transient failure on any
attempt is propagated from that attempt with no further wait and no further
attempts. -/
theorem callWithRetry_spec (attempt : Nat → Except JsError α)
    (retries d : Nat) :
    (∀ k v, k ≤ retries →
      (∀ j, j < k → ∃ e, attempt j = .error e ∧ isRetryable e = true) →
      attempt k = .ok v →
      callWithRetry attempt 0 retries d = (.ok v, retryWaits d k)) ∧
    (∀ es : Nat → JsError,
      (∀ j, j ≤ retries → attempt j = .error (es j) ∧
        isRetryable (es j) = true) →
      callWithRetry attempt 0 retries d =
        (.error (es retries), retryWaits d retries)) ∧
    (∀ k e, k ≤ retries → isRetryable e = false →
      (∀ j, j < k → ∃ e', attempt j = .error e' ∧ isRetryable e' = true) →
      attempt k = .error e →
      callWithRetry attempt 0 retries d = (.error e, retryWaits d k)) := by
  refine ⟨?_, ?_, ?_⟩
  · intro k v hk hfail hok
    have := callWithRetry_ok_aux attempt v k 0 retries d hk
      (fun j hj => by simpa using hfail j hj) (by simpa using hok)
    simpa using this
  · intro es hfail
    have := callWithRetry_exhaust_aux attempt es retries 0 d
      (fun j hj => by simpa using hfail j hj)
    simpa using this
  · intro k e hk hfatal hfail herr
    have := callWithRetry_fatal_aux attempt e hfatal k 0 retries d hk
      (fun j hj => by simpa using hfail j hj) (by simpa using herr)
    simpa using this

/-- Outcome stream: one rate-limit failure, then success. -/
def attemptThenOk : Nat → Except JsError Nat :=
  fun n => if n = 0 then .error { status := some 429 } else .ok 7

/-- Outcome stream: the service is overloaded on every attempt. -/
def attemptAllBusy : Nat → Except JsError Nat :=
  fun _ => .error { status := some 503 }

/-- Outcome stream: immediate non-transient failure. -/
def attemptFatal : Nat → Except JsError Nat :=
  fun _ => .error { status := some 400, message := some (str "Bad Request") }

/-- Witness for C3: the three retry behaviours at concrete outcome streams
(defaults: 3 retries, initial delay 1000ms). -/
theorem callWithRetry_spec_witness :
    callWithRetry attemptThenOk 0 3 1000 = (.ok 7, [1000]) ∧
    callWithRetry attemptAllBusy 0 3 1000 =
      (.error { status := some 503 }, [1000, 2000, 4000]) ∧
    callWithRetry attemptFatal 0 3 1000 =
      (.error { status := some 400, message := some (str "Bad Request") },
        []) := by
  refine ⟨?_, ?_, ?_⟩
  · have h := (callWithRetry_spec attemptThenOk 3 1000).1 1 7 (by omega)
      (fun j hj => by
        have hj0 : j = 0 := by omega
        subst hj0
        exact ⟨{ status := some 429 }, rfl, by decide⟩)
      rfl
    exact h.trans (by rfl)
  · have h := (callWithRetry_spec attemptAllBusy 3 1000).2.1
      (fun _ => { status := some 503 })
      (fun j _ =>
        ⟨rfl, show isRetryable { status := some 503, message := none } = true
          by decide⟩)
    exact h.trans (by rfl)
  · have h := (callWithRetry_spec attemptFatal 3 1000).2.2 0
      { status := some 400, message := some (str "Bad Request") }
      (by omega) (by decide) (fun j hj => by omega) rfl
    exact h.trans (by rfl)

/-! ## ConsistencyPromptBuilder (`generateImage` prompt assembly)

The image-generation service function assembles a rigid prompt from a global
style block, one labeled block per active character carrying the stored
visual signature verbatim, and the scene content, in that order.  The
character resolution (which characters are active in a scene) lives in the
application's image handlers. -/

/-- One `--- CHARACTER: name ---` block of the prompt template, carrying the
stored visual signature (`c.description`) verbatim. -/
def characterEntry (c : Character) : Str :=
  str "\n--- CHARACTER: " ++ c.name ++ str " ---\n" ++ c.description
    ++ str "\n"

/-- The `characterBlock` template string of `generateImage` (empty when no
character is active; the per-character entries are joined with a newline). -/
def characterBlock (activeCharacters : List Character) : Str :=
  if 0 < activeCharacters.length then
    str "\n*** CHARACTER VISUAL REQUIREMENTS (STRICT ADHERENCE REQUIRED) ***\nThe following characters are present in the scene. You MUST render them EXACTLY as described. \nIf multiple characters are listed, ALL must appear.\n"
      ++ joinSep (str "\n") (activeCharacters.map characterEntry)
      ++ str "\n"
  else []

/-- The `styleBlock` template string of `generateImage`. -/
def styleBlock (style : ImageStyleConfig) : Str :=
  str "\n*** GLOBAL ART STYLE & TECHNICAL SPECS ***\n- Art Style: "
    ++ style.artStyle
    ++ str "\n- Lighting: " ++ style.lighting
    ++ str "\n- Color Palette: " ++ style.colorGrade
    ++ str "\n- Camera Angle: " ++ style.cameraAngle
    ++ str "\n- Character Look: " ++ style.characterLook
    ++ str "\n- Clothing Style: " ++ style.clothingStyle
    ++ str "\n- Quality: 8k, highly detailed, photorealistic, cinematic composition.\n"

/-- The `sceneBlock` template string of `generateImage`. -/
def sceneBlock (basePrompt : Str) : Str :=
  str "\n*** SCENE CONTENT ***\n" ++ basePrompt ++ str "\n"

/-- The `finalPrompt` assembly of `generateImage`: preamble, style block,
character block, scene block, closing instruction. -/
def finalPrompt (basePrompt : Str) (style : ImageStyleConfig)
    (activeCharacters : List Character) : Str :=
  str "\nYou are an expert image generation prompt engineer.\nGenerate an image based on the following rigid specifications.\n\n"
    ++ styleBlock style ++ str "\n"
    ++ characterBlock activeCharacters ++ str "\n"
    ++ sceneBlock basePrompt
    ++ str "\n\nINSTRUCTION: \n1. Prioritize the GLOBAL ART STYLE. The entire image must unify under \""
    ++ style.artStyle
    ++ str "\".\n2. Render characters EXACTLY as defined in the CHARACTER VISUAL REQUIREMENTS. Do not blend their features.\n3. Ensure the scene content actions are depicted clearly.\n"

/-- The bidirectional case-insensitive substring test the image handlers use
for one scene-name entry against a stored character:
`n.toLowerCase().includes(c.name.toLowerCase()) ||
c.name.toLowerCase().includes(n.toLowerCase())`. -/
def nameMatches (c : Character) (n : Str) : Bool :=
  subCheck (lowerStr c.name) (lowerStr n)
    || subCheck (lowerStr n) (lowerStr c.name)

/-- A stored character is active in a scene when some entry of the scene's
`characterNames` matches it (`scene.characterNames?.some(...)` in
`handleGenerateImage` / `handleGenerateAllImages`). -/
def matchesScene (scene : Scene) (c : Character) : Bool :=
  scene.characterNames.any (fun n => nameMatches c n)

/-- `const activeChars = project.config.characters.filter(...)` of the image
handlers. -/
def activeCharsFor (characters : List Character) (scene : Scene) :
    List Character :=
  characters.filter (fun c => matchesScene scene c)

/-- The prompt the image path sends for a scene: handler resolution composed
with the service's prompt assembly. -/
def builtImagePrompt (characters : List Character) (scene : Scene)
    (style : ImageStyleConfig) : Str :=
  finalPrompt scene.imagePrompt style (activeCharsFor characters scene)

theorem isSubstr_characterEntry (c : Character) :
    IsSubstr c.description (characterEntry c) :=
  ⟨str "\n--- CHARACTER: " ++ c.name ++ str " ---\n", str "\n",
    by simp [characterEntry, List.append_assoc]⟩

theorem isSubstr_characterBlock (active : List Character) (c : Character)
    (hc : c ∈ active) :
    IsSubstr c.description (characterBlock active) := by
  have hlen : 0 < active.length := List.length_pos.mpr (List.ne_nil_of_mem hc)
  have hentry := isSubstr_characterEntry c
  have hjoin := isSubstr_joinSep (str "\n") (active.map characterEntry)
    (characterEntry c) (List.mem_map_of_mem characterEntry hc)
  have h := isSubstr_trans _ _ _ hentry hjoin
  rw [characterBlock, if_pos hlen]
  exact isSubstr_append_right _ _ _ (isSubstr_append_left _ _ _ h)

theorem filter_erase {α : Type _} [DecidableEq α] (p : α → Bool) (c : α)
    (hp : p c = false) :
    ∀ l : List α, (l.erase c).filter p = l.filter p := by
  intro l
  induction l with
  | nil => rfl
  | cons a l ih =>
    rw [List.erase_cons]
    by_cases hac : a = c
    · subst hac
      simp only [if_pos (beq_self_eq_true a), List.filter_cons, hp]
      rfl
    · have : (a == c) = false := beq_eq_false_iff_ne.mpr hac
      simp only [this, Bool.false_eq_true, if_false, List.filter_cons, ih]

/-- **C1.** For any stored character matched by some entry of a scene's name
list (case-insensitive substring in either direction), the character's full
stored visual signature appears verbatim in the prompt that the image path
builds for the scene; an unmatched character contributes nothing: deleting
it from the stored list leaves the built prompt unchanged. -/
theorem builtImagePrompt_signatures (characters : List Character)
    (scene : Scene) (style : ImageStyleConfig) (c : Character)
    (hc : c ∈ characters) :
    (matchesScene scene c = true →
      IsSubstr c.description (builtImagePrompt characters scene style)) ∧
    (matchesScene scene c = false →
      builtImagePrompt characters scene style =
        builtImagePrompt (characters.erase c) scene style) := by
  constructor
  · intro hm
    have hmem : c ∈ activeCharsFor characters scene :=
      List.mem_filter.mpr ⟨hc, hm⟩
    have hblock := isSubstr_characterBlock _ c hmem
    unfold builtImagePrompt finalPrompt
    refine isSubstr_append_right _ _ _ ?_
    refine isSubstr_append_right _ _ _ ?_
    refine isSubstr_append_right _ _ _ ?_
    refine isSubstr_append_right _ _ _ ?_
    refine isSubstr_append_right _ _ _ ?_
    exact isSubstr_append_left _ _ _ hblock
  · intro hm
    unfold builtImagePrompt
    have : activeCharsFor (characters.erase c) scene =
        activeCharsFor characters scene := by
      unfold activeCharsFor
      exact filter_erase _ c hm characters
    rw [this]

/-- Witness fixture: an antagonist referenced by surname only. -/
def wVoss : Character :=
  { id := str "c1", name := str "Voss", role := str "antagonist",
    description := str "Tall man with a scar" }

/-- Witness fixture: a character absent from the scene. -/
def wLina : Character :=
  { id := str "c2", name := str "Lina", role := str "protagonist",
    description := str "Red hair and green coat" }

/-- Witness fixture: a scene naming only the antagonist, with a full-name
entry matched by the surname-only stored name. -/
def wScene : Scene :=
  { sceneNumber := 1, narrative := str "He waits.",
    imagePrompt := str "Voss walks through rain",
    motionPrompt := str "Slow pan right",
    characterNames := [str "Dr. Voss"] }

/-- Witness fixture: a global style vector. -/
def wStyle : ImageStyleConfig :=
  { artStyle := str "Film Noir", cameraAngle := str "Wide Shot",
    lighting := str "Dark & Moody", colorGrade := str "Desaturated",
    characterLook := str "Rugged", clothingStyle := str "Victorian" }

/-- Witness for C1: the matched character's signature is in the built
prompt; erasing the unmatched one leaves the prompt unchanged. -/
theorem builtImagePrompt_signatures_witness :
    IsSubstr (str "Tall man with a scar")
      (builtImagePrompt [wVoss, wLina] wScene wStyle) ∧
    builtImagePrompt [wVoss, wLina] wScene wStyle =
      builtImagePrompt ([wVoss, wLina].erase wLina) wScene wStyle := by
  constructor
  · exact (builtImagePrompt_signatures [wVoss, wLina] wScene wStyle wVoss
      (by decide)).1 (by decide)
  · exact (builtImagePrompt_signatures [wVoss, wLina] wScene wStyle wLina
      (by decide)).2 (by decide)

/-! ## SceneMediaJobs: the image path (`generateImage`)

`generateImage` assembles `finalPrompt` once, then inside one invocation of
the body handed to `callWithRetry` it calls `runGeneration` on the
high-quality tier and, in the `catch`, on the lower tier with the same
prompt.  `runGeneration` (one model call plus `inlineData` extraction,
throwing when no image part is present) is modeled by an outcome oracle
`svc model prompt`. -/

def geminiProImageModel : Str := str "gemini-3-pro-image-preview"

def geminiFlashImageModel : Str := str "gemini-2.5-flash-image"

/-- One invocation of the body `generateImage` hands to `callWithRetry`:
`try runGeneration('gemini-3-pro-image-preview', ...) catch
runGeneration('gemini-2.5-flash-image', ...)`, both on the same assembled
prompt. -/
def generateImageAttempt (svc : Str → Str → Except JsError Str)
    (basePrompt : Str) (style : ImageStyleConfig)
    (activeCharacters : List Character) : Except JsError Str :=
  match svc geminiProImageModel (finalPrompt basePrompt style activeCharacters) with
  | .ok img => .ok img
  | .error _ =>
      svc geminiFlashImageModel (finalPrompt basePrompt style activeCharacters)

/-- The whole exported `generateImage`: `callWithRetry` wrapping the
two-tier body, service outcomes indexed by invocation number. -/
def generateImage (svc : Nat → Str → Str → Except JsError Str)
    (basePrompt : Str) (style : ImageStyleConfig)
    (activeCharacters : List Character)
    (retries : Nat := 3) (delay : Nat := 1000) :
    Except JsError Str × List Nat :=
  callWithRetry
    (fun idx => generateImageAttempt (svc idx) basePrompt style activeCharacters)
    0 retries delay

/-- The model tiers one invocation of the body queries, in call order. -/
def attemptQueries (svc : Str → Str → Except JsError Str)
    (basePrompt : Str) (style : ImageStyleConfig)
    (activeCharacters : List Character) : List Str :=
  match svc geminiProImageModel (finalPrompt basePrompt style activeCharacters) with
  | .ok _ => [geminiProImageModel]
  | .error _ => [geminiProImageModel, geminiFlashImageModel]

/-- The tier-query trace of a whole `generateImage` call: the wrapper runs
one invocation of the body per recorded wait, plus the initial one. -/
def generateImageQueryTrace (svc : Nat → Str → Str → Except JsError Str)
    (basePrompt : Str) (style : ImageStyleConfig)
    (activeCharacters : List Character)
    (retries : Nat := 3) (delay : Nat := 1000) : List Str :=
  (List.range
      ((generateImage svc basePrompt style activeCharacters retries delay).2.length
        + 1)).flatMap
    (fun i => attemptQueries (svc i) basePrompt style activeCharacters)

/-- **C4.** Within one invocation of the image body, the high tier is tried
first on the assembled prompt; on any failure of that tier, the exact same
prompt is retried once against the lower tier, and a failure escapes the
body only when both tiers failed (the surfaced error being the lower
tier's). -/
theorem generateImageAttempt_fallback (svc : Str → Str → Except JsError Str)
    (basePrompt : Str) (style : ImageStyleConfig)
    (activeCharacters : List Character) :
    (∀ img,
      svc geminiProImageModel (finalPrompt basePrompt style activeCharacters)
        = .ok img →
      generateImageAttempt svc basePrompt style activeCharacters = .ok img) ∧
    (∀ e img,
      svc geminiProImageModel (finalPrompt basePrompt style activeCharacters)
        = .error e →
      svc geminiFlashImageModel (finalPrompt basePrompt style activeCharacters)
        = .ok img →
      generateImageAttempt svc basePrompt style activeCharacters = .ok img) ∧
    (∀ e₂,
      generateImageAttempt svc basePrompt style activeCharacters = .error e₂ →
      ∃ e₁,
        svc geminiProImageModel (finalPrompt basePrompt style activeCharacters)
          = .error e₁ ∧
        svc geminiFlashImageModel (finalPrompt basePrompt style activeCharacters)
          = .error e₂) := by
  refine ⟨?_, ?_, ?_⟩
  · intro img h
    unfold generateImageAttempt
    rw [h]
  · intro e img h₁ h₂
    unfold generateImageAttempt
    rw [h₁, h₂]
  · intro e₂ h
    unfold generateImageAttempt at h
    rcases hpro : svc geminiProImageModel
        (finalPrompt basePrompt style activeCharacters) with e₁ | img
    · rw [hpro] at h
      exact ⟨e₁, rfl, h⟩
    · rw [hpro] at h
      cases h

/-- Witness service: the high tier always succeeds. -/
def svcProOk : Str → Str → Except JsError Str :=
  fun _ _ => .ok (str "PRO-IMG")

/-- Witness service: the high tier fails, the low tier succeeds. -/
def svcFlashOnly : Str → Str → Except JsError Str :=
  fun model _ =>
    if model = geminiProImageModel then
      .error { status := some 500, message := some (str "Pro tier unavailable") }
    else .ok (str "FLASH-IMG")

/-- Witness service: both tiers fail. -/
def svcBothFail : Str → Str → Except JsError Str :=
  fun model _ =>
    if model = geminiProImageModel then
      .error { status := some 500, message := some (str "Pro tier unavailable") }
    else .error { status := some 500, message := some (str "Flash down too") }

/-- Witness for C4 at concrete services: high tier wins when available, the
low tier rescues a high-tier failure, and a surfaced failure implies both
tiers failed. -/
theorem generateImageAttempt_fallback_witness :
    generateImageAttempt svcProOk (str "A scene") wStyle [] =
      .ok (str "PRO-IMG") ∧
    generateImageAttempt svcFlashOnly (str "A scene") wStyle [] =
      .ok (str "FLASH-IMG") ∧
    (∃ e₁,
      svcBothFail geminiProImageModel (finalPrompt (str "A scene") wStyle [])
        = .error e₁ ∧
      svcBothFail geminiFlashImageModel (finalPrompt (str "A scene") wStyle [])
        = .error { status := some 500,
                   message := some (str "Flash down too") }) := by
  refine ⟨?_, ?_, ?_⟩
  · exact (generateImageAttempt_fallback svcProOk (str "A scene") wStyle []).1
      (str "PRO-IMG") rfl
  · exact (generateImageAttempt_fallback svcFlashOnly (str "A scene") wStyle
      []).2.1 { status := some 500, message := some (str "Pro tier unavailable") }
      (str "FLASH-IMG") rfl rfl
  · exact (generateImageAttempt_fallback svcBothFail (str "A scene") wStyle
      []).2.2 { status := some 500, message := some (str "Flash down too") } rfl

/-- Inversion of `callWithRetry`: every terminated call performed
`ws.length` retried invocations, all of which surfaced transient errors,
and its result is the outcome of invocation `ws.length`. -/
theorem callWithRetry_inversion (attempt : Nat → Except JsError α) :
    ∀ r idx d res ws, callWithRetry attempt idx r d = (res, ws) →
      ws.length ≤ r ∧
      (∀ i, i < ws.length →
        ∃ e, attempt (idx + i) = .error e ∧ isRetryable e = true) ∧
      (∀ v, res = .ok v → attempt (idx + ws.length) = .ok v) ∧
      (∀ e, res = .error e → attempt (idx + ws.length) = .error e) := by
  intro r
  induction r with
  | zero =>
    intro idx d res ws h
    rcases hatt : attempt idx with e | v
    · rw [callWithRetry_step_zero attempt idx d e hatt] at h
      have h1 : Except.error e = res := congrArg Prod.fst h
      have h2 : ([] : List Nat) = ws := congrArg Prod.snd h
      subst h1; subst h2
      refine ⟨by simp, by simp, ?_, ?_⟩
      · intro v hv; cases hv
      · intro e' he'
        injection he' with he'
        subst he'
        simpa using hatt
    · rw [callWithRetry_step_ok attempt idx 0 d v hatt] at h
      have h1 : Except.ok v = res := congrArg Prod.fst h
      have h2 : ([] : List Nat) = ws := congrArg Prod.snd h
      subst h1; subst h2
      refine ⟨by simp, by simp, ?_, ?_⟩
      · intro v' hv'
        injection hv' with hv'
        subst hv'
        simpa using hatt
      · intro e' he'; cases he'
  | succ r ih =>
    intro idx d res ws h
    rcases hatt : attempt idx with e | v
    · rcases hr : isRetryable e with _ | _
      · rw [callWithRetry_step_fatal attempt idx r d e hatt hr] at h
        have h1 : Except.error e = res := congrArg Prod.fst h
        have h2 : ([] : List Nat) = ws := congrArg Prod.snd h
        subst h1; subst h2
        refine ⟨by simp, by simp, ?_, ?_⟩
        · intro v hv; cases hv
        · intro e' he'
          injection he' with he'
          subst he'
          simpa using hatt
      · rcases hrec : callWithRetry attempt (idx + 1) r (d * 2) with ⟨res', ws'⟩
        rw [callWithRetry_step_retry attempt idx r d e hatt hr, hrec] at h
        have h1 : res' = res := congrArg Prod.fst h
        have h2 : d :: ws' = ws := congrArg Prod.snd h
        subst h1; subst h2
        obtain ⟨ihlen, ihtrans, ihok, iherr⟩ := ih (idx + 1) (d * 2) res' ws' hrec
        refine ⟨by simpa using ihlen, ?_, ?_, ?_⟩
        · intro i hi
          match i with
          | 0 => exact ⟨e, by simpa using hatt, hr⟩
          | i' + 1 =>
            have := ihtrans i' (by simpa using hi)
            rwa [show idx + 1 + i' = idx + (i' + 1) by omega] at this
        · intro v hv
          have := ihok v hv
          rwa [show idx + 1 + ws'.length = idx + (d :: ws').length by simp; omega]
            at this
        · intro e' he'
          have := iherr e' he'
          rwa [show idx + 1 + ws'.length = idx + (d :: ws').length by simp; omega]
            at this
    · rw [callWithRetry_step_ok attempt idx (r + 1) d v hatt] at h
      have h1 : Except.ok v = res := congrArg Prod.fst h
      have h2 : ([] : List Nat) = ws := congrArg Prod.snd h
      subst h1; subst h2
      refine ⟨by simp, by simp, ?_, ?_⟩
      · intro v' hv'
        injection hv' with hv'
        subst hv'
        simpa using hatt
      · intro e' he'; cases he'

/-- Counterexample service for the policy-composition claim: on the first
invocation the high tier fails non-transiently (bad request) and the low
tier fails transiently (overloaded); on every later invocation the high
tier succeeds. -/
def svcMixed : Nat → Str → Str → Except JsError Str :=
  fun idx model _ =>
    if idx = 0 then
      if model = geminiProImageModel then
        .error { status := some 400, message := some (str "Billing issue") }
      else .error { status := some 503 }
    else
      if model = geminiProImageModel then .ok (str "PRO-RETRY-IMG")
      else .ok (str "FLASH-IMG")

/-- **C5 counterexample.** In the code the retry wrapper encloses the tier
fallback, not the other way round: with `svcMixed` the first invocation
spans both tiers (queries `[pro, flash]`), its surfaced transient error is
the *low* tier's, and the ensuing retry re-attempts the *high* tier, whose
image is returned — the query trace revisits the high tier after the low
tier was already queried, which the claim says never happens. -/
theorem generateImage_retry_reattempts_high_tier :
    generateImage svcMixed (str "A scene") wStyle [] 3 1000 =
      (.ok (str "PRO-RETRY-IMG"), [1000]) ∧
    generateImageQueryTrace svcMixed (str "A scene") wStyle [] 3 1000 =
      [geminiProImageModel, geminiFlashImageModel, geminiProImageModel] ∧
    (∃ i j, i < j ∧
      (generateImageQueryTrace svcMixed (str "A scene") wStyle [] 3
          1000).getD i [] = geminiFlashImageModel ∧
      (generateImageQueryTrace svcMixed (str "A scene") wStyle [] 3
          1000).getD j [] = geminiProImageModel) :=
  ⟨rfl, rfl, 1, 2, by omega, rfl, rfl⟩

/-- **C5 amended.** The composition actually implemented: exponential-backoff
retry wraps the tier fallback.  Every invocation of the retried body is the
two-tier composite (high tier first, then — on any high-tier failure — the
low tier on the same prompt); each of the `ws.length` retried invocations
surfaced a transient composite error; and the final result is the
terminating invocation's composite outcome, so a retry re-runs both tiers
beginning with the high one. -/
theorem generateImage_fallback_within_retry
    (svc : Nat → Str → Str → Except JsError Str) (basePrompt : Str)
    (style : ImageStyleConfig) (activeCharacters : List Character)
    (r d : Nat) (res : Except JsError Str) (ws : List Nat)
    (h : generateImage svc basePrompt style activeCharacters r d = (res, ws)) :
    ws.length ≤ r ∧
    (∀ i, i < ws.length →
      ∃ e, generateImageAttempt (svc i) basePrompt style activeCharacters
        = .error e ∧ isRetryable e = true) ∧
    (∀ e, res = .error e →
      ∃ e₁,
        svc ws.length geminiProImageModel
          (finalPrompt basePrompt style activeCharacters) = .error e₁ ∧
        svc ws.length geminiFlashImageModel
          (finalPrompt basePrompt style activeCharacters) = .error e) ∧
    (∀ v, res = .ok v →
      svc ws.length geminiProImageModel
          (finalPrompt basePrompt style activeCharacters) = .ok v ∨
      ∃ e₁,
        svc ws.length geminiProImageModel
          (finalPrompt basePrompt style activeCharacters) = .error e₁ ∧
        svc ws.length geminiFlashImageModel
          (finalPrompt basePrompt style activeCharacters) = .ok v) := by
  obtain ⟨hlen, htrans, hok, herr⟩ := callWithRetry_inversion
    (fun idx => generateImageAttempt (svc idx) basePrompt style activeCharacters)
    r 0 d res ws h
  refine ⟨hlen, fun i hi => by simpa using htrans i hi, ?_, ?_⟩
  · intro e he
    have hatt := herr e he
    simp only [Nat.zero_add] at hatt
    unfold generateImageAttempt at hatt
    rcases hpro : svc ws.length geminiProImageModel
        (finalPrompt basePrompt style activeCharacters) with e₁ | img
    · rw [hpro] at hatt
      exact ⟨e₁, rfl, hatt⟩
    · rw [hpro] at hatt
      cases hatt
  · intro v hv
    have hatt := hok v hv
    simp only [Nat.zero_add] at hatt
    unfold generateImageAttempt at hatt
    rcases hpro : svc ws.length geminiProImageModel
        (finalPrompt basePrompt style activeCharacters) with e₁ | img
    · rw [hpro] at hatt
      exact Or.inr ⟨e₁, rfl, hatt⟩
    · rw [hpro] at hatt
      injection hatt with hatt
      exact Or.inl (congrArg Except.ok hatt)

/-- Witness for the amended C5 at the concrete mixed service: the single
retried invocation surfaced a transient composite error, and the
terminating invocation's result came from the high tier. -/
theorem generateImage_fallback_within_retry_witness :
    (∃ e, generateImageAttempt (svcMixed 0) (str "A scene") wStyle []
      = .error e ∧ isRetryable e = true) ∧
    (svcMixed 1 geminiProImageModel (finalPrompt (str "A scene") wStyle [])
        = .ok (str "PRO-RETRY-IMG") ∨
      ∃ e₁,
        svcMixed 1 geminiProImageModel (finalPrompt (str "A scene") wStyle [])
          = .error e₁ ∧
        svcMixed 1 geminiFlashImageModel (finalPrompt (str "A scene") wStyle [])
          = .ok (str "PRO-RETRY-IMG")) := by
  have h := generateImage_fallback_within_retry svcMixed (str "A scene")
    wStyle [] 3 1000 (.ok (str "PRO-RETRY-IMG")) [1000] rfl
  exact ⟨h.2.1 0 (by simp), h.2.2.2 (str "PRO-RETRY-IMG") rfl⟩

/-! ## ProjectStateMerger and the scene handlers (`App.tsx`)

The handlers copy the scenes array (`const newScenes = [...p.output.scenes]`)
and overwrite one index.  `setSceneAt` models that single-index overwrite
(the handlers only ever use indices of existing scenes, so an out-of-range
index leaves the list unchanged). -/

def setSceneAt : List Scene → Nat → Scene → List Scene
  | [], _, _ => []
  | _ :: rest, 0, s => s :: rest
  | x :: rest, n + 1, s => x :: setSceneAt rest n s

theorem setSceneAt_length (l : List Scene) :
    ∀ (i : Nat) (s : Scene), (setSceneAt l i s).length = l.length := by
  induction l with
  | nil => intro i s; rfl
  | cons x rest ih =>
    intro i s
    cases i with
    | zero => rfl
    | succ n => simpa [setSceneAt] using ih n s

theorem setSceneAt_getD_ne (l : List Scene) :
    ∀ (i j : Nat) (s : Scene), j ≠ i →
      (setSceneAt l i s).getD j default = l.getD j default := by
  induction l with
  | nil => intro i s j _; cases i <;> rfl
  | cons x rest ih =>
    intro i j s hji
    cases i with
    | zero =>
      cases j with
      | zero => exact absurd rfl hji
      | succ m => rfl
    | succ n =>
      cases j with
      | zero => rfl
      | succ m =>
        simpa [setSceneAt] using ih n m s (fun h => hji (by omega))

theorem setSceneAt_getD_eq (l : List Scene) :
    ∀ (i : Nat) (s : Scene), i < l.length →
      (setSceneAt l i s).getD i default = s := by
  induction l with
  | nil => intro i s h; simp at h
  | cons x rest ih =>
    intro i s hi
    cases i with
    | zero => rfl
    | succ n => simpa [setSceneAt] using ih n s (by simpa using hi)

/-- `project.output.scenes[sceneIndex]`: the scene a single-scene handler
reads (before it awaits the service call). -/
def sceneAt (p : Project) (i : Nat) : Scene :=
  match p.output with
  | some out => out.scenes.getD i default
  | none => default

/-- The spread `{ ...scene, audioData: base64Wav }`. -/
def withAudio (s : Scene) (wav : Str) : Scene := { s with audioData := some wav }

/-- The spread `{ ...scene, imageUrl: base64Img }`. -/
def withImage (s : Scene) (img : Str) : Scene := { s with imageUrl := some img }

/-- The functional update the audio handler passes to `setProject`:
`newScenes[sceneIndex] = { ...scene, audioData: base64Wav }` applied to the
*latest* project `latest`, with `scene` the value `captured` that was read
before the await. -/
def mergeAudioResult (latest : Project) (i : Nat) (captured : Scene)
    (wav : Str) : Project :=
  match latest.output with
  | none => latest
  | some out =>
    { latest with output := some { out with
        scenes := setSceneAt out.scenes i (withAudio captured wav) } }

/-- The functional update the image handler passes to `setProject`
(`newScenes[sceneIndex] = { ...scene, imageUrl: base64Img }`). -/
def mergeImageResult (latest : Project) (i : Nat) (captured : Scene)
    (img : Str) : Project :=
  match latest.output with
  | none => latest
  | some out =>
    { latest with output := some { out with
        scenes := setSceneAt out.scenes i (withImage captured img) } }

/-- `handleGenerateAudio` run to completion with no interleaved update: the
captured scene is still the current one when the merge runs.  `result` is
the outcome of `generateSpeech` (`none` models the catch path, which leaves
the project untouched). -/
def handleGenerateAudio (p : Project) (i : Nat) (result : Option Str) :
    Project :=
  match result with
  | none => p
  | some wav => mergeAudioResult p i (sceneAt p i) wav

/-- `handleGenerateImage` run to completion with no interleaved update. -/
def handleGenerateImage (p : Project) (i : Nat) (result : Option Str) :
    Project :=
  match result with
  | none => p
  | some img => mergeImageResult p i (sceneAt p i) img

theorem mergeAudioResult_eq (p : Project) (out : StoryOutput)
    (hout : p.output = some out) (i : Nat) (captured : Scene) (wav : Str) :
    mergeAudioResult p i captured wav =
      { p with output := some { out with
          scenes := setSceneAt out.scenes i (withAudio captured wav) } } := by
  unfold mergeAudioResult
  rw [hout]

theorem mergeImageResult_eq (p : Project) (out : StoryOutput)
    (hout : p.output = some out) (i : Nat) (captured : Scene) (img : Str) :
    mergeImageResult p i captured img =
      { p with output := some { out with
          scenes := setSceneAt out.scenes i (withImage captured img) } } := by
  unfold mergeImageResult
  rw [hout]

theorem sceneAt_eq (p : Project) (out : StoryOutput)
    (hout : p.output = some out) (i : Nat) :
    sceneAt p i = out.scenes.getD i default := by
  unfold sceneAt
  rw [hout]

/-- **C7.** Applying a single scene's regenerated audio (resp. image) result
replaces only that scene's corresponding media slot: every other scene is
unchanged, the targeted scene is exactly the old scene with only that slot
replaced (so its text fields and its other media slot are untouched),
title/summary keep their values, and every other project field is
preserved.  (Stated for a handler that runs without interleaved updates;
the interleaved behaviour is treated separately.) -/
theorem handleGenerate_single_slot_frame (p : Project) (out : StoryOutput)
    (i : Nat) (hout : p.output = some out) (hi : i < out.scenes.length)
    (wav img : Str) :
    (∃ out', (handleGenerateAudio p i (some wav)).output = some out' ∧
      out'.title = out.title ∧ out'.summary = out.summary ∧
      out'.scenes.length = out.scenes.length ∧
      (∀ j, j ≠ i →
        out'.scenes.getD j default = out.scenes.getD j default) ∧
      out'.scenes.getD i default =
        withAudio (out.scenes.getD i default) wav) ∧
    (∃ out', (handleGenerateImage p i (some img)).output = some out' ∧
      out'.title = out.title ∧ out'.summary = out.summary ∧
      out'.scenes.length = out.scenes.length ∧
      (∀ j, j ≠ i →
        out'.scenes.getD j default = out.scenes.getD j default) ∧
      out'.scenes.getD i default =
        withImage (out.scenes.getD i default) img) ∧
    (handleGenerateAudio p i (some wav)).config = p.config ∧
    (handleGenerateAudio p i (some wav)).voiceConfig = p.voiceConfig ∧
    (handleGenerateAudio p i (some wav)).imageStyle = p.imageStyle ∧
    (handleGenerateAudio p i (some wav)).mediaSettings = p.mediaSettings ∧
    (handleGenerateImage p i (some img)).config = p.config ∧
    (handleGenerateImage p i (some img)).voiceConfig = p.voiceConfig ∧
    (handleGenerateImage p i (some img)).imageStyle = p.imageStyle ∧
    (handleGenerateImage p i (some img)).mediaSettings = p.mediaSettings := by
  have haudio : handleGenerateAudio p i (some wav) =
      { p with output := some { out with
          scenes := setSceneAt out.scenes i
            (withAudio (out.scenes.getD i default) wav) } } := by
    show mergeAudioResult p i (sceneAt p i) wav = _
    rw [sceneAt_eq p out hout, mergeAudioResult_eq p out hout]
  have himage : handleGenerateImage p i (some img) =
      { p with output := some { out with
          scenes := setSceneAt out.scenes i
            (withImage (out.scenes.getD i default) img) } } := by
    show mergeImageResult p i (sceneAt p i) img = _
    rw [sceneAt_eq p out hout, mergeImageResult_eq p out hout]
  refine ⟨?_, ?_, by rw [haudio], by rw [haudio], by rw [haudio],
    by rw [haudio], by rw [himage], by rw [himage], by rw [himage],
    by rw [himage]⟩
  · use { out with scenes := setSceneAt out.scenes i (withAudio (out.scenes.getD i default) wav) }
    exact ⟨by rw [haudio], rfl, rfl, setSceneAt_length _ _ _,
      fun j hj => setSceneAt_getD_ne _ _ _ _ hj,
      setSceneAt_getD_eq _ _ _ hi⟩
  · use { out with scenes := setSceneAt out.scenes i (withImage (out.scenes.getD i default) img) }
    exact ⟨by rw [himage], rfl, rfl, setSceneAt_length _ _ _,
      fun j hj => setSceneAt_getD_ne _ _ _ _ hj,
      setSceneAt_getD_eq _ _ _ hi⟩

/-- Witness fixture: a bare scene with both media slots empty. -/
def wSceneBare : Scene :=
  { sceneNumber := 1, narrative := str "Night falls.",
    imagePrompt := str "A dark alley", motionPrompt := str "Static camera",
    characterNames := [] }

/-- Witness fixture: a one-scene story output. -/
def wOutput : StoryOutput :=
  { title := str "T", summary := str "S", scenes := [wSceneBare] }

/-- Witness fixture: a story configuration. -/
def wConfig : StoryConfig :=
  { language := str "en", category := str "mystery", title := str "",
    premise := str "p", setting := str "s", pacing := str "balanced",
    plotTwist := str "mild", characters := [], sceneCount := 1,
    characterCount := 0 }

/-- Witness fixture: a voice configuration. -/
def wVoice : VoiceConfig :=
  { voiceType := str "man_soft", tone := str "calm",
    accent := str "neutral", language := str "en" }

/-- Witness fixture: media settings. -/
def wMedia : MediaSettings :=
  { aspectRatio := str "16:9",
    imageModel := str "gemini-3-pro-image-preview" }

/-- Witness fixture: a project holding the one-scene output. -/
def wProject : Project :=
  { id := str "p1", createdAt := 0, config := wConfig,
    output := some wOutput, mediaSettings := wMedia, imageStyle := wStyle,
    voiceConfig := wVoice }

/-- Witness for C7 at the concrete one-scene project. -/
theorem handleGenerate_single_slot_frame_witness :
    (handleGenerateAudio wProject 0 (some (str "WAV"))).config
      = wProject.config ∧
    (handleGenerateAudio wProject 0 (some (str "WAV"))).voiceConfig
      = wProject.voiceConfig ∧
    (handleGenerateImage wProject 0 (some (str "IMG"))).imageStyle
      = wProject.imageStyle ∧
    (handleGenerateImage wProject 0 (some (str "IMG"))).mediaSettings
      = wProject.mediaSettings := by
  have h := handleGenerate_single_slot_frame wProject wOutput 0 rfl
    (by decide) (str "WAV") (str "IMG")
  exact ⟨h.2.2.1, h.2.2.2.1, h.2.2.2.2.2.2.2.2.1, h.2.2.2.2.2.2.2.2.2⟩

/-- **C8.** The single-scene merges do *not* read the latest value of the
targeted scene: the functional updater spreads the scene captured before
the await.  Concretely, with one scene whose slots start empty: an image
result committed while the audio call is in flight is visible in the
intermediate project, yet after the audio merge (which spreads the captured
pre-call scene) the image slot is back to `none` — the concurrent update is
lost, contradicting the claim that the merge preserves the newer value. -/
theorem mergeAudioResult_loses_concurrent_image :
    (sceneAt (mergeImageResult wProject 0 (sceneAt wProject 0)
        (str "IMG")) 0).imageUrl = some (str "IMG") ∧
    (sceneAt (mergeAudioResult
        (mergeImageResult wProject 0 (sceneAt wProject 0) (str "IMG"))
        0 (sceneAt wProject 0) (str "WAV")) 0).audioData
      = some (str "WAV") ∧
    (sceneAt (mergeAudioResult
        (mergeImageResult wProject 0 (sceneAt wProject 0) (str "IMG"))
        0 (sceneAt wProject 0) (str "WAV")) 0).imageUrl = none :=
  ⟨rfl, rfl, rfl⟩

/-! ## BatchRunner (`handleGenerateAllAudio` / `handleGenerateAllImages`)

The batch handlers loop `for (let i = 0; i < scenes.length; i++)` strictly
sequentially, committing each successful per-scene result into the project
(`newScenes[i] = { ...newScenes[i], slot: payload }` on the latest state)
before the next iteration, and on a per-scene failure log and continue.
`results i` is the outcome of scene `i`'s service call (`none` = the catch
path). -/

def batchStep (upd : Scene → Str → Scene) (results : Nat → Option Str)
    (acc : Project) (i : Nat) : Project :=
  match acc.output, results i with
  | some out, some payload =>
    { acc with output := some { out with
        scenes := setSceneAt out.scenes i (upd (out.scenes.getD i default) payload) } }
  | _, _ => acc

/-- `handleGenerateAllAudio`: sequential fold over ascending scene indices,
filling audio slots. -/
def handleGenerateAllAudio (p : Project) (speech : Nat → Option Str) :
    Project :=
  match p.output with
  | none => p
  | some out =>
    (List.range out.scenes.length).foldl (batchStep withAudio speech) p

/-- `handleGenerateAllImages`: sequential fold over ascending scene indices,
filling image slots. -/
def handleGenerateAllImages (p : Project) (images : Nat → Option Str) :
    Project :=
  match p.output with
  | none => p
  | some out =>
    (List.range out.scenes.length).foldl (batchStep withImage images) p

theorem batchStep_none (upd : Scene → Str → Scene)
    (results : Nat → Option Str) (acc : Project) (i : Nat)
    (h : results i = none) : batchStep upd results acc i = acc := by
  unfold batchStep
  rw [h]
  rcases acc.output with _ | o <;> rfl

theorem batchStep_some (upd : Scene → Str → Scene)
    (results : Nat → Option Str) (acc : Project) (i : Nat) (payload : Str)
    (o : StoryOutput) (h : results i = some payload)
    (hacc : acc.output = some o) :
    batchStep upd results acc i =
      { acc with output := some { o with
          scenes := setSceneAt o.scenes i (upd (o.scenes.getD i default) payload) } } := by
  unfold batchStep
  rw [h, hacc]

/-- The state after running the first `m` iterations of a batch: every
scene with index below `m` holds its outcome (updated slot on success,
untouched on failure), every later scene and every other field is
unchanged. -/
theorem batchFold_spec (upd : Scene → Str → Scene)
    (results : Nat → Option Str) (p : Project) (out : StoryOutput)
    (hout : p.output = some out) :
    ∀ m, ∃ out',
      ((List.range m).foldl (batchStep upd results) p).output = some out' ∧
      ((List.range m).foldl (batchStep upd results) p).config = p.config ∧
      ((List.range m).foldl (batchStep upd results) p).voiceConfig = p.voiceConfig ∧
      ((List.range m).foldl (batchStep upd results) p).imageStyle = p.imageStyle ∧
      ((List.range m).foldl (batchStep upd results) p).mediaSettings = p.mediaSettings ∧
      out'.title = out.title ∧ out'.summary = out.summary ∧
      out'.scenes.length = out.scenes.length ∧
      (∀ j, m ≤ j → out'.scenes.getD j default = out.scenes.getD j default) ∧
      (∀ j, j < m → results j = none →
        out'.scenes.getD j default = out.scenes.getD j default) ∧
      (∀ j payload, j < m → j < out.scenes.length → results j = some payload →
        out'.scenes.getD j default = upd (out.scenes.getD j default) payload) := by
  intro m
  induction m with
  | zero =>
    refine ⟨out, by simpa using hout, rfl, rfl, rfl, rfl, rfl, rfl, rfl,
      fun j _ => rfl, fun j hj _ => absurd hj (by omega),
      fun j _ hj _ _ => absurd hj (by omega)⟩
  | succ m ih =>
    obtain ⟨out', hq, hcfg, hvc, his, hms, htitle, hsum, hlen, hge, hnone,
      hsome⟩ := ih
    rw [List.range_succ, List.foldl_append, List.foldl_cons, List.foldl_nil]
    rcases hr : results m with _ | payload
    · rw [batchStep_none upd results _ m hr]
      refine ⟨out', hq, hcfg, hvc, his, hms, htitle, hsum, hlen, ?_, ?_, ?_⟩
      · exact fun j hj => hge j (by omega)
      · intro j hj hjn
        by_cases hjm : j = m
        · subst hjm; exact hge j (Nat.le_refl j)
        · exact hnone j (by omega) hjn
      · intro j payload hj hjlen hjs
        by_cases hjm : j = m
        · subst hjm; rw [hr] at hjs; cases hjs
        · exact hsome j payload (by omega) hjlen hjs
    · rw [batchStep_some upd results _ m payload out' hr hq]
      refine ⟨_, rfl, hcfg, hvc, his, hms, htitle, hsum, ?_, ?_, ?_, ?_⟩
      · rw [setSceneAt_length]; exact hlen
      · intro j hj
        rw [setSceneAt_getD_ne _ _ _ _ (by omega : j ≠ m)]
        exact hge j (by omega)
      · intro j hjm hjn
        have hjm' : j ≠ m := fun h => by rw [h, hr] at hjn; cases hjn
        rw [setSceneAt_getD_ne _ _ _ _ hjm']
        exact hnone j (by omega) hjn
      · intro j payload' hj hjlen hjs
        by_cases hjm : j = m
        · subst hjm
          have hpay : payload' = payload := by
            rw [hr] at hjs
            injection hjs with h
            exact h.symm
          subst hpay
          rw [setSceneAt_getD_eq _ _ _ (by rw [hlen]; exact hjlen),
            hge j (Nat.le_refl j)]
        · rw [setSceneAt_getD_ne _ _ _ _ hjm]
          exact hsome j payload' (by omega) hjlen hjs

/-- **C6.** A batch over the N scenes (all-audio or all-images) runs the
per-scene jobs sequentially in ascending index order and commits each
result incrementally: in the final state every scene whose job succeeded
holds its generated result, every scene whose job failed is untouched (the
batch continues past it), text fields and the rest of the project are
unchanged; and already after the first `m` iterations every success below
`m` is committed (no completed result is lost by a later failure). -/
theorem handleGenerateAll_isolation (p : Project) (out : StoryOutput)
    (hout : p.output = some out) (speech images : Nat → Option Str) :
    (∃ out', (handleGenerateAllAudio p speech).output = some out' ∧
      (handleGenerateAllAudio p speech).config = p.config ∧
      out'.title = out.title ∧ out'.summary = out.summary ∧
      out'.scenes.length = out.scenes.length ∧
      (∀ j, j < out.scenes.length → speech j = none →
        out'.scenes.getD j default = out.scenes.getD j default) ∧
      (∀ j wav, j < out.scenes.length → speech j = some wav →
        out'.scenes.getD j default = withAudio (out.scenes.getD j default) wav)) ∧
    (∃ out', (handleGenerateAllImages p images).output = some out' ∧
      (handleGenerateAllImages p images).config = p.config ∧
      out'.title = out.title ∧ out'.summary = out.summary ∧
      out'.scenes.length = out.scenes.length ∧
      (∀ j, j < out.scenes.length → images j = none →
        out'.scenes.getD j default = out.scenes.getD j default) ∧
      (∀ j img, j < out.scenes.length → images j = some img →
        out'.scenes.getD j default = withImage (out.scenes.getD j default) img)) ∧
    (∀ m, m ≤ out.scenes.length → ∃ out'',
      ((List.range m).foldl (batchStep withAudio speech) p).output = some out'' ∧
      (∀ j wav, j < m → speech j = some wav →
        out''.scenes.getD j default = withAudio (out.scenes.getD j default) wav)) ∧
    (∀ m, m ≤ out.scenes.length → ∃ out'',
      ((List.range m).foldl (batchStep withImage images) p).output = some out'' ∧
      (∀ j img, j < m → images j = some img →
        out''.scenes.getD j default = withImage (out.scenes.getD j default) img)) := by
  have ha : handleGenerateAllAudio p speech =
      (List.range out.scenes.length).foldl (batchStep withAudio speech) p := by
    unfold handleGenerateAllAudio
    rw [hout]
  have hi : handleGenerateAllImages p images =
      (List.range out.scenes.length).foldl (batchStep withImage images) p := by
    unfold handleGenerateAllImages
    rw [hout]
  refine ⟨?_, ?_, ?_, ?_⟩
  · obtain ⟨out', hq, hcfg, _, _, _, htitle, hsum, hlen, _, hnone, hsome⟩ :=
      batchFold_spec withAudio speech p out hout out.scenes.length
    exact ⟨out', by rw [ha]; exact hq, by rw [ha]; exact hcfg, htitle, hsum,
      hlen, fun j hj hjn => hnone j hj hjn,
      fun j wav hj hjs => hsome j wav hj hj hjs⟩
  · obtain ⟨out', hq, hcfg, _, _, _, htitle, hsum, hlen, _, hnone, hsome⟩ :=
      batchFold_spec withImage images p out hout out.scenes.length
    exact ⟨out', by rw [hi]; exact hq, by rw [hi]; exact hcfg, htitle, hsum,
      hlen, fun j hj hjn => hnone j hj hjn,
      fun j img hj hjs => hsome j img hj hj hjs⟩
  · intro m hm
    obtain ⟨out'', hq, _, _, _, _, _, _, _, _, _, hsome⟩ :=
      batchFold_spec withAudio speech p out hout m
    exact ⟨out'', hq,
      fun j wav hj hjs => hsome j wav hj (by omega) hjs⟩
  · intro m hm
    obtain ⟨out'', hq, _, _, _, _, _, _, _, _, _, hsome⟩ :=
      batchFold_spec withImage images p out hout m
    exact ⟨out'', hq,
      fun j img hj hjs => hsome j img hj (by omega) hjs⟩

/-- Witness fixture: a second scene. -/
def wScene2 : Scene :=
  { sceneNumber := 2, narrative := str "Rain.",
    imagePrompt := str "A bridge", motionPrompt := str "Pan left",
    characterNames := [] }

/-- Witness fixture: a third scene. -/
def wScene3 : Scene :=
  { sceneNumber := 3, narrative := str "Dawn.",
    imagePrompt := str "A rooftop", motionPrompt := str "Push in",
    characterNames := [] }

/-- Witness fixture: a three-scene story output. -/
def wOutput3 : StoryOutput :=
  { title := str "T3", summary := str "S3",
    scenes := [wSceneBare, wScene2, wScene3] }

/-- Witness fixture: the project holding the three-scene output. -/
def wProject3 : Project := { wProject with output := some wOutput3 }

/-- Witness fixture: per-scene speech outcomes where scene 1 fails. -/
def speechW : Nat → Option Str :=
  fun n => if n = 0 then some (str "W0")
    else if n = 1 then none else some (str "W2")

/-- Witness fixture: per-scene image outcomes where scene 1 fails. -/
def imagesW : Nat → Option Str :=
  fun n => if n = 1 then none else some (str "I")

/-- Witness for C6 at the three-scene project with scene 1 failing: scenes
0 and 2 hold their results, scene 1 is untouched, in both batch kinds. -/
theorem handleGenerateAll_isolation_witness :
    (handleGenerateAllAudio wProject3 speechW).output.map
        (fun o => o.scenes.getD 0 default)
      = some (withAudio (wOutput3.scenes.getD 0 default) (str "W0")) ∧
    (handleGenerateAllAudio wProject3 speechW).output.map
        (fun o => o.scenes.getD 1 default)
      = some (wOutput3.scenes.getD 1 default) ∧
    (handleGenerateAllAudio wProject3 speechW).output.map
        (fun o => o.scenes.getD 2 default)
      = some (withAudio (wOutput3.scenes.getD 2 default) (str "W2")) ∧
    (handleGenerateAllImages wProject3 imagesW).output.map
        (fun o => o.scenes.getD 1 default)
      = some (wOutput3.scenes.getD 1 default) := by
  obtain ⟨⟨outA, hA, _, _, _, _, hAnone, hAsome⟩,
    ⟨outI, hI, _, _, _, _, hInone, hIsome⟩, _, _⟩ :=
    handleGenerateAll_isolation wProject3 wOutput3 rfl speechW imagesW
  refine ⟨?_, ?_, ?_, ?_⟩
  · rw [hA]
    exact congrArg some (hAsome 0 (str "W0") (by decide) rfl)
  · rw [hA]
    exact congrArg some (hAnone 1 (by decide) rfl)
  · rw [hA]
    exact congrArg some (hAsome 2 (str "W2") (by decide) rfl)
  · rw [hI]
    exact congrArg some (hInone 1 (by decide) rfl)

/-! ## ScriptGenerationJob (`generateStory`) -/

/-- The error `generateStory` throws when the response carries no text. -/
def noTextError : JsError :=
  { message := some (str "No text returned from Gemini.") }

/-- `generateStory`'s handling of the service response: throw when
`response.text` is absent, otherwise return `JSON.parse(response.text) as
StoryOutput` unchanged — the cast checks nothing and no validation of scene
count or numbering is performed.  `resp` is the parsed response (`none`
models a missing text; a JSON parse failure is a further error path that
never yields a value, so it cannot affect what a *successful* call
returns). -/
def generateStory (_config : StoryConfig) (resp : Option StoryOutput) :
    Except JsError StoryOutput :=
  match resp with
  | none => .error noTextError
  | some parsed => .ok parsed

/-- Witness fixture: a configuration requesting three scenes. -/
def wConfig3 : StoryConfig := { wConfig with sceneCount := 3 }

/-- Witness fixture: a parsed response with only two scenes. -/
def wTwoSceneOutput : StoryOutput :=
  { title := str "T2", summary := str "S2",
    scenes := [wSceneBare, wScene2] }

/-- **C9 counterexample.** `generateStory` happily returns a parsed response
with two scenes for a configuration requesting three: the scene-count
invariant is not enforced by the code. -/
theorem generateStory_accepts_wrong_sceneCount :
    generateStory wConfig3 (some wTwoSceneOutput) = .ok wTwoSceneOutput ∧
    wTwoSceneOutput.scenes.length = 2 ∧
    wConfig3.sceneCount = 3 :=
  ⟨rfl, rfl, rfl⟩

/-- **C9 amended.** A successful script-generation call returns the parsed
service response verbatim, with no validation: its result equals the parsed
`StoryOutput` exactly, so it has `sceneCount` densely numbered scenes if
and only if the service response already does. -/
theorem generateStory_returns_parse_unvalidated (config : StoryConfig)
    (resp : Option StoryOutput) (out : StoryOutput) :
    generateStory config resp = .ok out ↔ resp = some out := by
  constructor
  · intro h
    cases resp with
    | none =>
      unfold generateStory at h
      cases h
    | some parsed =>
      unfold generateStory at h
      injection h with h
      rw [h]
  · rintro rfl
    rfl

/-! ## The speech decode path (`generateSpeech`) -/

/-- The `RangeError` a JS engine throws for a misaligned `Int16Array`
construction. -/
def rangeError : JsError :=
  { message := some (str "byte length of Int16Array should be a multiple of 2") }

/-- The little-endian signed 16-bit samples stored in a byte buffer (the
view an `Int16Array` provides; a trailing odd byte cannot occur because
construction requires even length). -/
def int16FromPairs : List Nat → List Int
  | b0 :: b1 :: rest =>
      (if b0 + 256 * b1 < 32768 then ((b0 + 256 * b1 : Nat) : Int)
       else ((b0 + 256 * b1 : Nat) : Int) - 65536) :: int16FromPairs rest
  | _ => []

/-- `new Int16Array(bytes.buffer)`: ECMAScript requires the buffer's byte
length to be a multiple of the element size 2 and throws a `RangeError`
otherwise. -/
def newInt16Array (bytes : List Nat) : Except JsError (List Int) :=
  if bytes.length % 2 = 0 then .ok (int16FromPairs bytes)
  else .error rangeError

/-- The payload processing of `generateSpeech` once audio data is present:
the base64 payload is decoded to bytes (modeled directly by the decoded
byte list), reinterpreted as an `Int16Array`, and wrapped by
`addWavHeader` at 24000 Hz.  (The final chunked base64 re-encoding is a
bijective transport step and is omitted from the model.) -/
def generateSpeechDecode (bytes : List Nat) : Except JsError (List Nat) :=
  match newInt16Array bytes with
  | .error e => .error e
  | .ok pcmData => .ok (addWavHeader pcmData 24000)

/-- **C10.** The speech path is total only under the even-length
precondition: a service payload decoding to an odd number of bytes makes
the `Int16Array` construction throw, so `generateSpeech` fails with an
exception instead of producing output; an even payload yields the audio
container. -/
theorem generateSpeechDecode_even_precondition (bytes : List Nat) :
    (bytes.length % 2 = 1 →
      generateSpeechDecode bytes = .error rangeError) ∧
    (bytes.length % 2 = 0 →
      generateSpeechDecode bytes =
        .ok (addWavHeader (int16FromPairs bytes) 24000)) := by
  constructor
  · intro h
    unfold generateSpeechDecode newInt16Array
    rw [if_neg (by omega)]
  · intro h
    unfold generateSpeechDecode newInt16Array
    rw [if_pos h]

/-- Witness for C10: a three-byte payload throws, a two-byte payload yields
the container for the single decoded sample. -/
theorem generateSpeechDecode_even_precondition_witness :
    generateSpeechDecode [1, 2, 3] = .error rangeError ∧
    generateSpeechDecode [16, 0] = .ok (addWavHeader [16] 24000) := by
  refine ⟨(generateSpeechDecode_even_precondition [1, 2, 3]).1 (by decide), ?_⟩
  have h := (generateSpeechDecode_even_precondition [16, 0]).2 (by decide)
  rw [h]
  rfl

end StoryStudio
